import Mathlib

/-!
Shallow embedding of the SocietyScout chatbot core (src/chatbot/rules.py,
src/chatbot/memory.py, src/chatbot/conversation.py, src/data.py).

Python strings are modelled as Lean `String`, Python lists as Lean `List`,
Python dicts with fixed keys as Lean structures.  Stateful methods of
`ConversationMemory` / `ConversationManager` are modelled as pure functions
from the old state to the new state (plus the returned response).  The
external event store is the `QueryService` interface (`get_all_events`,
`search_events`); `src/data.py`'s `EventDatabase` provides a concrete
instance (`dbService`), with `datetime.now()` passed explicitly as a day
ordinal `today`.
-/

/-! ### Python string primitives -/

/-- `str.lower()` (ASCII case mapping, which covers every string this program
produces). -/
def pyLower (s : String) : String := ⟨s.data.map Char.toLower⟩

/-- `str.upper()`. -/
def pyUpper (s : String) : String := ⟨s.data.map Char.toUpper⟩

/-- `str.strip()`: drop leading and trailing whitespace. -/
def pyStrip (s : String) : String :=
  ⟨((s.data.dropWhile Char.isWhitespace).reverse.dropWhile Char.isWhitespace).reverse⟩

/-- Helper for `str.split()`: accumulate the current word (reversed) while
splitting on whitespace runs. -/
def splitWsAux : List Char → List Char → List String
  | [], acc => if acc.isEmpty then [] else [⟨acc.reverse⟩]
  | c :: rest, acc =>
    if c.isWhitespace then
      if acc.isEmpty then splitWsAux rest [] else ⟨acc.reverse⟩ :: splitWsAux rest []
    else splitWsAux rest (c :: acc)

/-- `str.split()` with no argument: split on whitespace runs, no empty parts. -/
def pySplit (s : String) : List String := splitWsAux s.data []

/-- Whether `needle` occurs as a contiguous infix of `hay` (both as char lists). -/
def listIsInfixOf (needle hay : List Char) : Bool :=
  hay.tails.any (fun t => needle.isPrefixOf t)

/-- Python's `needle in hay` on strings: substring test. -/
def pyIn (needle hay : String) : Bool := listIsInfixOf needle.data hay.data

/-- Python's `sep.join(parts)`. -/
def pyJoin (sep : String) : List String → String
  | [] => ""
  | [a] => a
  | a :: rest => a ++ sep ++ pyJoin sep rest

/-- `str.isdigit()` (ASCII digits, which covers this program's inputs). -/
def pyIsDigit (s : String) : Bool := !s.data.isEmpty && s.data.all Char.isDigit

/-- `str.startswith(pre)`. -/
def pyStartsWith (s pre : String) : Bool := pre.data.isPrefixOf s.data

/-- `str.endswith(suf)`. -/
def pyEndsWith (s suf : String) : Bool := suf.data.isSuffixOf s.data

/-- Python slicing `s[:-k]`: all but the last `k` characters. -/
def pyDropRight (s : String) (k : Nat) : String := ⟨s.data.take (s.data.length - k)⟩

/-- `str.capitalize()`: first character upper-cased, the rest lower-cased. -/
def pyCapitalize (s : String) : String :=
  match s.data with
  | [] => ⟨[]⟩
  | c :: rest => ⟨c.toUpper :: rest.map Char.toLower⟩

/-- Helper for `str.title()`: a character is upper-cased when the previous
character is not alphabetic. -/
def pyTitleAux : List Char → Bool → List Char
  | [], _ => []
  | c :: rest, prevAlpha =>
    (if c.isAlpha then (if prevAlpha then c.toLower else c.toUpper) else c)
      :: pyTitleAux rest c.isAlpha

/-- `str.title()`. -/
def pyTitle (s : String) : String := ⟨pyTitleAux s.data false⟩

/-- `str.replace(a, b)` for a single-character pattern (the program only uses
`.replace('_', ' ')`). -/
def pyReplaceChar (s : String) (a b : Char) : String :=
  ⟨s.data.map (fun c => if c = a then b else c)⟩

/-- `string.punctuation` from the Python standard library. -/
def punctuationChars : List Char :=
  "!\"#$%&'()*+,-./:;<=>?@[\\]^_`\x7b|\x7d~".data

/-- `text.translate(str.maketrans('', '', string.punctuation))`: delete every
punctuation character. -/
def removePunct (s : String) : String :=
  ⟨s.data.filter (fun c => !(punctuationChars.contains c))⟩

/-! ### src/chatbot/rules.py — vocabularies -/

def EVENT_TYPES : List String :=
  ["workshop", "meetup", "lecture", "seminar", "party", "social", "networking"]

def ORGANIZERS : List String :=
  ["arc", "library", "club", "clubs", "founders", "makerspace", "unsw"]

def HELP_KEYWORDS : List String :=
  ["help", "assist", "assistance", "support", "guidance", "how", "info"]

def GREETING_WORDS : List String :=
  ["hi", "hello", "hey", "greetings", "good", "morning", "afternoon", "evening"]

def TOPIC_KEYWORDS : List String :=
  ["coding", "programming", "tech", "technology", "computer", "software", "hardware",
   "python", "java", "javascript", "web", "app", "mobile", "ai", "ml", "data", "cyber",
   "security", "blockchain", "game", "gaming", "vr", "ar", "cloud", "database",
   "design", "graphic", "ui", "ux", "art", "creative", "photography", "video",
   "animation", "film", "music", "theater", "performance", "drawing", "painting",
   "business", "entrepreneurship", "startup", "marketing", "finance", "accounting",
   "consulting", "leadership", "management", "career", "professional", "internship",
   "networking", "resume", "interview",
   "research", "science", "engineering", "math", "physics", "chemistry", "biology",
   "medicine", "health", "psychology", "law", "history", "literature", "language",
   "culture", "cultural", "diversity", "community", "volunteer", "charity", "social",
   "environment", "sustainability", "activism", "politics", "debate", "discussion",
   "sport", "sports", "fitness", "yoga", "wellness", "mental", "mindfulness",
   "meditation", "dance", "running", "soccer", "basketball", "volleyball",
   "food", "cooking", "baking", "coffee", "wine", "dining", "culinary", "dumplings",
   "outdoor", "hiking", "beach", "picnic", "nature", "camping", "adventure",
   "motorcycle", "ride", "scenic", "walking", "swimming",
   "party", "celebration", "awards", "graduation", "year-end", "festive", "holiday",
   "bbq", "fundraiser", "marathon", "competition", "tournament", "championships",
   "collaboration", "teamwork", "networking",
   "board games", "tabletop", "rpg", "pokemon", "nintendo", "gaming",
   "student", "study", "academic", "exam", "tutorial", "session", "training",
   "revision", "mock", "prep", "gamsat", "finals",
   "hackathon", "showcase", "exhibition", "conference", "panel", "seminar",
   "relaxation", "stress", "casual", "free", "online"]

def FILLER_WORDS : List String :=
  ["the", "a", "an",
   "uh", "uhm", "um", "er", "ah", "oh", "hmm",
   "like", "just", "so", "well", "basically", "actually", "literally",
   "seriously", "really", "very", "pretty", "kinda", "sorta", "kind", "sort",
   "maybe", "probably", "perhaps", "possibly",
   "some", "any", "all", "every", "each", "lot", "lots", "much", "many", "few",
   "that", "this", "these", "those", "it", "its",
   "is", "are", "was", "were", "be", "been", "being",
   "have", "has", "had", "having",
   "do", "does", "did", "doing", "done",
   "will", "would", "could", "should", "shall",
   "may", "might", "must", "can", "cant",
   "in", "on", "at", "by", "with", "from", "of", "to", "as", "for",
   "i", "me", "my", "mine", "you", "your", "yours",
   "and", "or", "but", "nor", "yet",
   "involve", "involves", "involving", "include", "includes", "including",
   "contain", "contains", "containing", "feature", "features", "featuring"]

def SEARCH_WORDS : List String :=
  ["find", "search", "locate", "discover", "browse", "explore",
   "show", "see", "check", "list", "view", "display", "pull", "fetch",
   "found", "results", "result",
   "whats", "what", "where", "when", "which", "who",
   "are", "is", "there", "available", "happening", "going", "on", "around",
   "got", "get", "give", "tell", "suggest",
   "looking", "interested", "want", "need", "like", "love", "prefer",
   "attend", "join", "participate", "go", "come",
   "im", "tryna", "trying", "wanna", "gonna", "gotta",
   "help", "assist", "suggestions", "options", "ideas",
   "events", "event", "for", "me", "any", "some", "stuff", "things",
   "upcoming", "future", "new",
   "can", "could", "would", "should"]

def DATE_WORDS : List String :=
  ["today", "tomorrow", "yesterday", "tonight",
   "day", "days",
   "week", "weeks", "weekend", "weekday", "weekdays",
   "month", "months",
   "year", "years",
   "next", "this", "last", "coming", "past", "previous",
   "current", "upcoming", "future", "recent",
   "monday", "tuesday", "wednesday", "thursday", "friday", "saturday", "sunday",
   "mon", "tue", "wed", "thu", "fri", "sat", "sun",
   "morning", "afternoon", "evening", "night", "midday", "noon", "midnight",
   "now", "soon", "later", "ago", "before", "after",
   "january", "february", "march", "april", "may", "june",
   "july", "august", "september", "october", "november", "december",
   "jan", "feb", "mar", "apr", "may", "jun",
   "jul", "aug", "sep", "oct", "nov", "dec"]

/-! ### src/chatbot/rules.py — singularize and normalize_input -/

/-- `ChatbotRules.singularize`: reduce plural and `-ing` forms to a base form. -/
def singularize (word : String) : String :=
  if word.data.length ≤ 2 then word
  else if pyEndsWith word "ing" && word.data.length > 4 then
    let base := pyDropRight word 3
    if !base.data.isEmpty &&
        !(['a', 'e', 'i', 'o', 'u'].contains (base.data.getLast?.getD ' ')) then
      let baseWithY := base ++ "y"
      if EVENT_TYPES.contains baseWithY then baseWithY else base
    else base
  else if pyEndsWith word "ies" && word.data.length > 3 then pyDropRight word 3 ++ "y"
  else if pyEndsWith word "ves" then pyDropRight word 3 ++ "fe"
  else if pyEndsWith word "ses" && word.data.length > 3 then pyDropRight word 2
  else if pyEndsWith word "s" && !pyEndsWith word "ss" then pyDropRight word 1
  else word

/-- Character class `[a-z0-9]` of the location regexes. -/
def isLowerAlnum (c : Char) : Bool := c.isDigit || ('a' ≤ c && c ≤ 'z')

/-- Character class `[a-z0-9\s]` of the labelled-location regex. -/
def isLocClassChar (c : Char) : Bool := isLowerAlnum c || c.isWhitespace

/-- Python `\w` (ASCII range, enough for this program's lowercased inputs). -/
def isWordChar (c : Char) : Bool := c.isAlphanum || c = '_'

/-- Match of `location\s*[:=]\s*([a-z0-9\s]+)` starting at this position:
returns the whitespace-split tokens of the captured group when the pattern
matches here.  (An all-whitespace capture yields `[]`, where Python would
raise IndexError on `[0]`; inside this program the branch is unreachable
because `:` and `=` are punctuation-stripped before every call.) -/
def labelMatchAt (cs : List Char) : Option (List String) :=
  if ("location".data).isPrefixOf cs then
    match (cs.drop 8).dropWhile Char.isWhitespace with
    | c :: r2 =>
      if c = ':' || c = '=' then
        let cap := r2.takeWhile isLocClassChar
        if cap.isEmpty then none else some (splitWsAux cap [])
      else none
    | [] => none
  else none

/-- `re.search` scan for the labelled-location pattern: leftmost match. -/
def findLabelMatch : List Char → Option (List String)
  | [] => none
  | cs@(_ :: rest) =>
    match labelMatchAt cs with
    | some toks => some toks
    | none => findLabelMatch rest

/-- `re.search` scan for `\b(?:in|at)\s+([a-z0-9]+(?:\s+[a-z0-9]+)?)`:
the returned value is `group(1).strip().split()[0]`, i.e. the first
alphanumeric run after the preposition.  `prev` is the character before the
current position (for the `\b` word-boundary test). -/
def findInAt (prev : Option Char) : List Char → Option String
  | [] => none
  | c1 :: rest1 =>
    let boundaryOk := match prev with
      | none => true
      | some p => !isWordChar p
    let tryHere : Option String :=
      if boundaryOk then
        match rest1 with
        | c2 :: rest2 =>
          if (c1 = 'i' && c2 = 'n') || (c1 = 'a' && c2 = 't') then
            let ws := rest2.takeWhile Char.isWhitespace
            if ws.isEmpty then none
            else
              let run := (rest2.drop ws.length).takeWhile isLowerAlnum
              if run.isEmpty then none else some ⟨run⟩
          else none
        | [] => none
      else none
    match tryHere with
    | some r => some r
    | none => findInAt (some c1) rest1

/-- `ChatbotRules._extract_location`. -/
def extract_location (text : String) : Option String :=
  match findLabelMatch text.data with
  | some toks => toks.head?
  | none => findInAt none text.data

/-- The shared shape of `normalize_input`'s result and of the engine's filter
map: one optional value per category plus a keyword list (the Python code uses
the same dict layout for both). -/
structure FilterMap where
  event_type : Option String
  date : Option String
  location : Option String
  organizer : Option String
  keywords : List String
deriving DecidableEq

/-- `ChatbotRules.normalize_input`. -/
def normalize_input (user_input : String) : FilterMap :=
  let text := removePunct (pyStrip (pyLower user_input))
  let words := pySplit text
  let filtered_words := (words.filter (fun w => !FILLER_WORDS.contains w)).map singularize
  let event_type :=
    filtered_words.foldl (fun acc w => if EVENT_TYPES.contains w then some w else acc) none
  let organizer :=
    filtered_words.foldl (fun acc w => if ORGANIZERS.contains w then some w else acc) none
  let date :=
    if pyIn "today" text then some "today"
    else if pyIn "tomorrow" text then some "tomorrow"
    else if pyIn "week" text then
      (if pyIn "next" text then some "next_week"
       else if pyIn "this" text then some "this_week"
       else none)
    else if pyIn "day" text || pyIn "days" text then
      words.foldl (fun acc w => if pyIsDigit w then some (w ++ " days") else acc) none
    else none
  let location := extract_location text
  let potential_keywords := filtered_words.filter (fun w =>
    !EVENT_TYPES.contains w && !ORGANIZERS.contains w && !DATE_WORDS.contains w &&
    !SEARCH_WORDS.contains w && !GREETING_WORDS.contains w && !pyIsDigit w)
  let keywords := potential_keywords.filter (fun w =>
    TOPIC_KEYWORDS.contains w || w.data.length ≥ 5)
  ⟨event_type, date, location, organizer, keywords⟩

/-- `ChatbotRules.contains_greeting`. -/
def contains_greeting (user_input : String) : Bool :=
  let normalized := pyStrip (pyLower user_input)
  let tokens := pySplit normalized
  if ["good morning", "good afternoon", "good evening"].any (fun p => pyIn p normalized)
  then true
  else tokens.any (fun w => GREETING_WORDS.contains w)

/-- `ChatbotRules._contains_filter_tokens`. -/
def contains_filter_tokens (tokens : List String) : Bool :=
  tokens.any (fun t => EVENT_TYPES.contains t) ||
  tokens.any (fun t => ORGANIZERS.contains t) ||
  tokens.any (fun t => DATE_WORDS.contains t) ||
  tokens.any pyIsDigit

/-- `ChatbotRules.detect_intent`: ordered rule precedence, returning the
intent name exactly as the Python code does (a string). -/
def detect_intent (user_input : String) : String :=
  let normalized := pyStrip (pyLower user_input)
  let tokens := pySplit normalized
  let singular_tokens := tokens.map singularize
  let uncertainty_phrases :=
    ["i don't know", "i dont know", "idk", "not sure", "unsure",
     "don't know", "dont know", "no idea", "no clue", "dunno",
     "whatever", "anything", "surprise me"]
  if uncertainty_phrases.any (fun p => pyIn p normalized) then "uncertainty"
  else
    let positive_phrases := ["yes", "yeah", "yep", "sure", "ok", "okay", "yea", "ya"]
    if positive_phrases.contains normalized ||
        positive_phrases.any (fun p => pyStartsWith normalized (p ++ " ")) then
      "positive_response"
    else
      let negative_phrases := ["no", "nah", "nope", "not really", "no thanks", "no thank you"]
      if negative_phrases.contains normalized ||
          negative_phrases.any (fun p => pyIn p normalized) then "negative_response"
      else if pyIn "language" normalized || pyIn "语言" normalized ||
          pyIn "langue" normalized then "change_language"
      else if tokens.any (fun w => HELP_KEYWORDS.contains w) then "help"
      else if pyIn "remember this" normalized || pyStartsWith normalized "remember " then
        "remember_filters"
      else if pyIn "use saved" normalized || pyIn "use saved filters" normalized ||
          pyIn "load saved filters" normalized then "use_saved_filters"
      else if pyIn "reset except" normalized then "reset_except"
      else if tokens.any (fun w => ["cancel", "undo", "back"].contains w) then "cancel"
      else if tokens.any (fun w => ["reset", "restart", "clear"].contains w) ||
          pyIn "start over" normalized then "reset"
      else if tokens.any (fun w => ["details", "detail"].contains w) then "get_details"
      else if ["tell me more", "more info", "more about"].any (fun p => pyIn p normalized) then
        "get_details"
      else if tokens.contains "about" &&
          tokens.any (fun t => pyIsDigit t || pyStartsWith t "evt") then "get_details"
      else if ["more events", "show more", "see more", "more results", "more please"].any
          (fun p => pyIn p normalized) then "more_results"
      else if tokens.any (fun w => SEARCH_WORDS.contains w) then "find_event"
      else if contains_filter_tokens singular_tokens then "find_event"
      else if contains_greeting user_input then "greeting"
      else "unknown"

/-! ### src/chatbot/memory.py — ConversationMemory -/

/-- One applied filter: the two-key dict built by `add_filter`, with a
`type` (filter kind) and a `value`.  Named `EventFilter` here only because
Mathlib already declares a `Filter`. -/
structure EventFilter where
  type : String
  value : String
deriving DecidableEq

/-- `ConversationMemory.add_filter`: append a filter to the store. -/
def add_filter (filters : List EventFilter) (filter_type value : String) : List EventFilter :=
  filters ++ [⟨filter_type, value⟩]

/-- `ConversationMemory.remove_last_filter`: pop the most recently added
filter; `(none, unchanged)` on an empty store. -/
def remove_last_filter (filters : List EventFilter) : Option EventFilter × List EventFilter :=
  if filters.isEmpty then (none, filters) else (filters.getLast?, filters.dropLast)

/-! ### src/data.py — EventDatabase -/

/-- One event record.  Fields the query code reads unconditionally
(`id`, `title`, `type`, `date`, `location`, `organizer`) are mandatory, the
rest are optional keys of the JSON record. -/
structure Event where
  id : String
  title : String
  type : String
  date : String
  location : String
  organizer : String
  time : Option String := none
  club_name : Option String := none
  description : Option String := none
  tags : Option (List String) := none
  registration_link : Option String := none
  cost : Option String := none
deriving DecidableEq

/-- Gregorian leap year. -/
def is_leap (y : Int) : Bool := (y % 4 == 0 && y % 100 != 0) || y % 400 == 0

/-- Days in a month, as `datetime` validates them. -/
def days_in_month (y m : Int) : Int :=
  if m == 2 then (if is_leap y then 29 else 28)
  else if [(4 : Int), 6, 9, 11].contains m then 30 else 31

/-- Digit run to a number. -/
def digitsToNat (cs : List Char) : Nat := cs.foldl (fun a c => a * 10 + (c.toNat - 48)) 0

/-- Split a char list on a separator character (like `str.split(sep)`). -/
def splitOnChar (sep : Char) : List Char → List (List Char)
  | [] => [[]]
  | c :: rest =>
    let r := splitOnChar sep rest
    if c = sep then [] :: r
    else match r with
      | h :: t => (c :: h) :: t
      | [] => [[c]]

/-- `datetime.strptime(s, '%Y-%m-%d')`: four-digit year, one/two-digit month
and day, value-checked (month 1..12, day valid for the month); `none` models
the ValueError path. -/
def parse_iso_date (s : String) : Option (Int × Int × Int) :=
  match splitOnChar '-' s.data with
  | [ys, ms, ds] =>
    if ys.length = 4 ∧ ys.all Char.isDigit ∧
        1 ≤ ms.length ∧ ms.length ≤ 2 ∧ ms.all Char.isDigit ∧
        1 ≤ ds.length ∧ ds.length ≤ 2 ∧ ds.all Char.isDigit then
      let y : Int := digitsToNat ys
      let m : Int := digitsToNat ms
      let d : Int := digitsToNat ds
      if 1 ≤ m ∧ m ≤ 12 ∧ 1 ≤ d ∧ d ≤ days_in_month y m then some (y, m, d) else none
    else none
  | _ => none

/-- Day ordinal of a civil date (days since 1970-01-01, Hinnant's algorithm);
the explicit counterpart of the `datetime.date` values the Python code
compares. -/
def days_from_civil (y m d : Int) : Int :=
  let y' := if m ≤ 2 then y - 1 else y
  let era := (if 0 ≤ y' then y' else y' - 399) / 400
  let yoe := y' - era * 400
  let mp := (m + 9) % 12
  let doy := (153 * mp + 2) / 5 + d - 1
  let doe := yoe * 365 + yoe / 4 - yoe / 100 + doy
  era * 146097 + doe - 719468

/-- `datetime.fromisoformat(s).date()` as a day ordinal (event dates are the
canonical `YYYY-MM-DD` strings of the store). -/
def date_ordinal (s : String) : Option Int :=
  (parse_iso_date s).map (fun t => days_from_civil t.1 t.2.1 t.2.2)

/-- `date.weekday()`: Monday = 0.  Ordinal 0 (1970-01-01) was a Thursday. -/
def py_weekday (ordinal : Int) : Int := (ordinal + 3) % 7

def WEEKDAY_NAMES : List String :=
  ["monday", "tuesday", "wednesday", "thursday", "friday", "saturday", "sunday"]

/-- `EventDatabase._filter_by_date`.  `today` is `datetime.now().date()` as a
day ordinal.  The `today`/`tomorrow`/weekday/literal-date branches share the
final exact-day filter of the source; `this_week`/`next_week` return their
window filters directly; an unrecognized value returns the events unchanged. -/
def filter_by_date (today : Int) (events : List Event) (date_value : String) : List Event :=
  if date_value = "today" then
    events.filter (fun e => date_ordinal e.date == some today)
  else if date_value = "tomorrow" then
    events.filter (fun e => date_ordinal e.date == some (today + 1))
  else if date_value = "this_week" then
    events.filter (fun e =>
      match date_ordinal e.date with
      | some ed => decide (today ≤ ed ∧ ed ≤ today + 7)
      | none => false)
  else if date_value = "next_week" then
    events.filter (fun e =>
      match date_ordinal e.date with
      | some ed => decide (today + 7 ≤ ed ∧ ed ≤ today + 14)
      | none => false)
  else if date_value ∈ WEEKDAY_NAMES then
    let target_weekday : Int := WEEKDAY_NAMES.indexOf date_value
    let current_weekday := py_weekday today
    let days_ahead0 := (target_weekday - current_weekday) % 7
    let days_ahead := if days_ahead0 == 0 then 7 else days_ahead0
    let target := today + days_ahead
    events.filter (fun e => date_ordinal e.date == some target)
  else
    match parse_iso_date date_value with
    | some (y, m, d) =>
      let target := days_from_civil y m d
      events.filter (fun e => date_ordinal e.date == some target)
    | none => events

/-- `EventDatabase._filter_by_keyword`: case-insensitive substring match
against title, description and tags. -/
def filter_by_keyword (events : List Event) (keyword : String) : List Event :=
  events.filter (fun e =>
    pyIn keyword (pyLower e.title) ||
    pyIn keyword (pyLower (e.description.getD "")) ||
    (e.tags.getD []).any (fun tag => pyIn keyword (pyLower tag)))

/-- `EventDatabase.search_events`: apply the filters in order as a logical
AND; filter types outside the five known kinds are no-ops. -/
def db_search_events (today : Int) (events : List Event) (filters : List EventFilter) : List Event :=
  filters.foldl (fun results filter_item =>
    let filter_value := pyLower filter_item.value
    if filter_item.type = "event_type" then
      results.filter (fun e => pyLower e.type == filter_value)
    else if filter_item.type = "organizer" then
      results.filter (fun e => pyLower e.organizer == filter_value)
    else if filter_item.type = "date" then
      filter_by_date today results filter_value
    else if filter_item.type = "location" then
      results.filter (fun e => pyIn filter_value (pyLower e.location))
    else if filter_item.type = "keyword" then
      filter_by_keyword results filter_value
    else results) events

/-- The query-service interface the engine calls (§6 of the spec):
`get_all_events` and `search_events` of the injected event database. -/
structure QueryService where
  get_all_events : List Event
  search_events : List EventFilter → List Event

/-- `EventDatabase` as a `QueryService` (with `datetime.now()` fixed to the
day ordinal `today`). -/
def dbService (today : Int) (events : List Event) : QueryService :=
  ⟨events, db_search_events today events⟩

/-! ### src/chatbot/conversation.py — ConversationManager -/

/-- Python truthiness of an optional string (`None` and `""` are falsy). -/
def truthy : Option String → Bool
  | none => false
  | some s => !s.isEmpty

/-- `[text for text in parts if text]` over optional strings. -/
def truthyList (l : List (Option String)) : List String :=
  (l.filter truthy).map (fun o => o.getD "")

/-- `ConversationManager._search_events`: an empty store queries the whole
catalog, otherwise the filters are passed to the database. -/
def conv_search_events (db : QueryService) (filters : List EventFilter) : List Event :=
  if filters.isEmpty then db.get_all_events else db.search_events filters

/-- `ConversationManager._collect_filter_map`'s per-item step: keywords are
appended when not already present, category kinds overwrite.  (The store only
ever holds the five kinds written by `add_filter`'s callers; anything else
falls through unchanged.) -/
def collect_apply (m : FilterMap) (item : EventFilter) : FilterMap :=
  if item.type = "keyword" then
    if m.keywords.contains item.value then m
    else { m with keywords := m.keywords ++ [item.value] }
  else if item.type = "event_type" then { m with event_type := some item.value }
  else if item.type = "date" then { m with date := some item.value }
  else if item.type = "location" then { m with location := some item.value }
  else if item.type = "organizer" then { m with organizer := some item.value }
  else m

def emptyFilterMap : FilterMap := ⟨none, none, none, none, []⟩

/-- `ConversationManager._collect_filter_map`. -/
def collect_filter_map (filters : List EventFilter) : FilterMap :=
  filters.foldl collect_apply emptyFilterMap

/-- `ConversationManager._ingest_filters` (with `parsed_filters` given): add
each truthy extracted value to the store in the dict's key order
(event_type, date, location, organizer, then each keyword), and return the
new store together with `_collect_filter_map()` of it. -/
def ingest_filters (parsed : FilterMap) (mem : List EventFilter) : List EventFilter × FilterMap :=
  let m1 := if truthy parsed.event_type then add_filter mem "event_type" (parsed.event_type.getD "") else mem
  let m2 := if truthy parsed.date then add_filter m1 "date" (parsed.date.getD "") else m1
  let m3 := if truthy parsed.location then add_filter m2 "location" (parsed.location.getD "") else m2
  let m4 := if truthy parsed.organizer then add_filter m3 "organizer" (parsed.organizer.getD "") else m3
  let m5 := if !parsed.keywords.isEmpty then
      parsed.keywords.foldl (fun m kw => add_filter m "keyword" kw) m4
    else m4
  (m5, collect_filter_map m5)

def MONTH_NAMES : List String :=
  ["January", "February", "March", "April", "May", "June",
   "July", "August", "September", "October", "November", "December"]

/-- Zero-padded day of month, as `strftime('%d')` prints it. -/
def pad2 (n : Int) : String := if n < 10 then "0" ++ toString n else toString n

/-- `ConversationManager._humanize_value` (`current_year` is
`datetime.now().year`). -/
def humanize_value (current_year : Int) (value : String) : String :=
  match parse_iso_date value with
  | some (y, m, d) =>
    let month := MONTH_NAMES.getD (m - 1).toNat ""
    if y == current_year then month ++ " " ++ pad2 d
    else month ++ " " ++ pad2 d ++ ", " ++ toString y
  | none =>
    if value ∈ WEEKDAY_NAMES then pyCapitalize value
    else pyReplaceChar value '_' ' '

/-- `ConversationManager._format_filter_summary`. -/
def format_filter_summary (current_year : Int) (fm : FilterMap) : Option String :=
  let p1 := if truthy fm.event_type then [fm.event_type.getD "" ++ " events"] else []
  let p2 :=
    if !fm.keywords.isEmpty then
      (if truthy fm.event_type then ["about " ++ pyJoin ", " fm.keywords]
       else if fm.keywords.length == 1 then
         [pyJoin ", " fm.keywords ++ " events"]
       else ["events about " ++ pyJoin ", " fm.keywords])
    else []
  let p3 := if truthy fm.organizer then ["by " ++ fm.organizer.getD ""] else []
  let p4 := if truthy fm.location then ["in " ++ fm.location.getD ""] else []
  let p5 := if truthy fm.date then [humanize_value current_year (fm.date.getD "")] else []
  let parts := p1 ++ p2 ++ p3 ++ p4 ++ p5
  if parts.isEmpty then none else some (pyJoin ", " parts)

/-- `ConversationManager._build_results_header`. -/
def build_results_header (current_year : Int) (fm : FilterMap)
    (removed_filters : List EventFilter) : String :=
  let filters_text :=
    match format_filter_summary current_year fm with
    | some s => if s.isEmpty then "your request" else s
    | none => "your request"
  if removed_filters.isEmpty then "Here are events matching " ++ filters_text ++ ":"
  else
    let removed_parts := removed_filters.map (fun item =>
      pyReplaceChar item.type '_' ' ' ++ " '" ++ item.value ++ "'")
    let removed_text :=
      if removed_parts.length ≤ 2 then pyJoin " and " removed_parts
      else pyJoin ", " removed_parts.dropLast ++ ", and " ++
        (removed_parts.getLast?.getD "")
    "I couldn't find exact matches, so here are events close to " ++ filters_text ++
      " (I relaxed the " ++ removed_text ++ " filter):"

/-- `ConversationManager._more_results_prompt`. -/
def more_results_prompt (total shown : Nat) : String :=
  if total > shown then
    let remaining := total - shown
    let label := if remaining == 1 then "event" else "events"
    "There " ++ (if remaining == 1 then "is" else "are") ++ " " ++ toString remaining ++
      " more " ++ label ++ ". Say 'more events' to see them all."
  else ""

/-- The 70-character horizontal rule of the result boxes. -/
def hbar : String := ⟨List.replicate 70 '─'⟩

/-- The lines `_format_search_results` emits for one listed event (`i` is the
1-based display index).  `type`, `date`, `location` and `organizer` are always
present in the data model, so their `in event` guards hold. -/
def render_event_lines (i : Nat) (e : Event) : List String :=
  let date_info := e.date ++
    (match e.time with
     | some t => if t ≠ "TBA" then " at " ++ t else ""
     | none => "")
  ["┌" ++ hbar ++ "┐",
   "│ [" ++ toString i ++ "] " ++ pyUpper e.title,
   "│     Type: " ++ pyTitle (pyReplaceChar e.type '_' ' '),
   "│     📅 When: " ++ date_info,
   "│     📍 Where: " ++ e.location,
   "│     👥 Host: " ++ e.organizer] ++
  (match e.tags with
   | some tags =>
     if tags.isEmpty then []
     else ["│     🏷️  Tags: " ++ pyJoin ", " (tags.take 5)]
   | none => []) ++
  ["└" ++ hbar ++ "┘", ""]

/-- `ConversationManager._format_search_results`. -/
def format_search_results (results : List Event) (header : Option String) : String :=
  if results.isEmpty then "I couldn't find any events matching that."
  else
    let headerLines := if truthy header then [header.getD "", ""] else []
    let eventLines :=
      ((results.take 5).enum.map (fun p => render_event_lines (p.1 + 1) p.2)).flatten
    let extraLines :=
      if results.length > 5 then
        let remaining := results.length - 5
        ["✨ Plus " ++ toString remaining ++ " more event" ++
          (if remaining != 1 then "s" else "") ++ " available!", ""]
      else []
    let tailLines :=
      ["💡 Say 'tell me about event 1' (or any number) to learn more about a specific event.",
       "🔄 Continue refining your search, or say 'reset' to start fresh."]
    pyJoin "\n" (headerLines ++ eventLines ++ extraLines ++ tailLines)

/-- `ConversationManager._build_missing_prompt` (disabled in the source:
always `None`). -/
def build_missing_prompt (_missing : List String) : Option String := none

/-- `ConversationManager._build_followup_prompt` (always `None`). -/
def build_followup_prompt : Option String := none

/-- `ConversationManager._missing_required_filters`. -/
def missing_required_filters (fm : FilterMap) : List String :=
  (if !truthy fm.event_type then ["an event type"] else []) ++
  (if !truthy fm.date then ["a date/time"] else []) ++
  (if !truthy fm.location then ["a location"] else []) ++
  (if !truthy fm.organizer then ["an organizer"] else []) ++
  (if fm.keywords.isEmpty then ["some keywords/topics"] else [])

/-! ### src/chatbot/conversation.py — the relaxation search -/

/-- The state of `_handle_no_results`'s while-loop when it stops:
the store's remaining filters, the `removed` list (in removal order), and
the first non-empty relaxed result set (`none` when every relaxation came
up empty). -/
structure RelaxOutcome where
  filters : List EventFilter
  removed : List EventFilter
  found : Option (List Event)
deriving DecidableEq

/-- The while-loop of `_handle_no_results`, structurally recursing on the
reversed store (popping the most recently added filter is taking the head of
the reversed list): pop, append to `removed`, re-query with the reduced
store (`_search_events`), and stop at the first non-empty result. -/
def relaxLoopRev (db : QueryService) : List EventFilter → List EventFilter → RelaxOutcome
  | [], removed => ⟨[], removed, none⟩
  | last :: restRev, removed =>
    let rest := restRev.reverse
    let removed' := removed ++ [last]
    let similar := conv_search_events db rest
    if similar.isEmpty then relaxLoopRev db restRev removed'
    else ⟨rest, removed', some similar⟩

/-- The while-loop of `_handle_no_results` on the store as kept (most
recently added filter last). -/
def relaxLoop (db : QueryService) (filters removed : List EventFilter) : RelaxOutcome :=
  relaxLoopRev db filters.reverse removed

/-- The `for item in reversed(removed): self.memory.add_filter(...)`
restoration step of `_handle_no_results`. -/
def restore_filters (mem removed : List EventFilter) : List EventFilter :=
  removed.reverse.foldl (fun m item => add_filter m item.type item.value) mem

/-- The state `_handle_no_results` leaves behind plus its returned response. -/
structure NoResultsOut where
  memory : List EventFilter
  lastResults : List Event
  lastRemovedFilters : List EventFilter
  resultsPointer : Nat
  response : String
deriving DecidableEq

/-- `ConversationManager._handle_no_results`: relax filters most-recent-first
until some query succeeds; on success cache the results, pointer and removed
record and restore the store; on exhaustion restore the store, clear the
cache and record, and answer with the broadened-search failure message.
`pointer` is the engine's `results_pointer` on entry (untouched by the
exhaustion branch). -/
def handle_no_results (db : QueryService) (current_year : Int) (fm : FilterMap)
    (mem : List EventFilter) (ack missing_line followup_line : Option String)
    (pointer : Nat) : NoResultsOut :=
  let o := relaxLoop db mem []
  match o.found with
  | some similar_results =>
    let header := build_results_header current_year fm o.removed
    let visible := similar_results.take 3
    let newPointer := min 3 similar_results.length
    let mem' := restore_filters o.filters o.removed
    let parts0 := truthyList [ack, missing_line,
      some (format_search_results visible (some header))]
    let more_prompt := more_results_prompt similar_results.length newPointer
    let parts := parts0 ++
      (if truthy missing_line then []
       else if !more_prompt.isEmpty then [more_prompt]
       else if truthy followup_line then [followup_line.getD ""] else [])
    ⟨mem', similar_results, o.removed, newPointer, pyJoin "\n\n" parts⟩
  | none =>
    let mem' := restore_filters o.filters o.removed
    let parts0 := truthyList [ack, missing_line]
    let parts1 := parts0 ++
      ["I couldn't find any events matching those criteria, even after broadening the search."]
    let parts := parts1 ++
      (if !truthy missing_line && truthy followup_line then [followup_line.getD ""] else [])
    ⟨mem', [], [], pointer, pyJoin "\n\n" parts⟩

/-! ### src/chatbot/conversation.py — result paging -/

/-- The slice of `ConversationManager`'s session state that paging touches. -/
structure ConvState where
  memory : List EventFilter
  lastResults : List Event
  resultsPointer : Nat
  lastRemovedFilters : List EventFilter
deriving DecidableEq

/-- `ConversationManager._render_results_response`: show the first page
(up to 3 events), set the pointer, and append at most one prompt. -/
def render_results_response (ack missing_line followup_line : Option String)
    (header : String) (results : List Event) : String × Nat :=
  let pointer := min 3 results.length
  let visible := results.take 3
  let response_parts := truthyList [ack, missing_line,
    some (format_search_results visible (some header))]
  let more_prompt := more_results_prompt results.length pointer
  let parts := response_parts ++
    (if truthy missing_line then []
     else if !more_prompt.isEmpty then [more_prompt]
     else if truthy followup_line then [followup_line.getD ""] else [])
  (pyJoin "\n\n" parts, pointer)

/-- `ConversationManager._handle_more_results`: with no cached results,
apologize; otherwise re-render the cached `last_results` in full (the
formatter shows at most 5), move the pointer to the end, and append the
exhaustion notice.  No query service is consulted. -/
def handle_more_results (current_year : Int) (st : ConvState) : String × ConvState :=
  if st.lastResults.isEmpty then
    ("I don't have earlier results to extend. Tell me what kind of event you're after and I'll search again.",
     st)
  else
    let fm := collect_filter_map st.memory
    let header := build_results_header current_year fm st.lastRemovedFilters
    let response := format_search_results st.lastResults (some header)
    let st' := { st with resultsPointer := st.lastResults.length }
    let missing := missing_required_filters fm
    let missing_line := build_missing_prompt missing
    let followup_line := build_followup_prompt
    let parts := [response, "That's all the events I found!"] ++
      (if truthy missing_line then [missing_line.getD ""]
       else if truthy followup_line then [followup_line.getD ""] else [])
    (pyJoin "\n\n" parts, st')

/-! ### Statement helpers and concrete instances -/

/-- Projection of the filter map at a category kind (the dict lookup
`filter_map[kind]` for the four single-valued categories). -/
def category_value (m : FilterMap) (k : String) : Option String :=
  if k = "event_type" then m.event_type
  else if k = "date" then m.date
  else if k = "location" then m.location
  else if k = "organizer" then m.organizer
  else none

/-- The four single-valued filter categories. -/
def CATEGORY_KINDS : List String := ["event_type", "date", "location", "organizer"]

/-- A workshop event run by Arc (concrete test datum). -/
def evWorkshop : Event :=
  { id := "evt001", title := "alpha", type := "workshop", date := "2025-01-01",
    location := "kensington", organizer := "arc" }

/-- A party event run by the library (concrete test datum). -/
def evParty : Event :=
  { id := "evt002", title := "beta", type := "party", date := "2025-01-02",
    location := "city", organizer := "library" }

/-- A seminar event (concrete test datum). -/
def evSeminar : Event :=
  { id := "evt003", title := "gamma", type := "seminar", date := "2025-01-03",
    location := "uni", organizer := "club" }

/-- A social event (concrete test datum). -/
def evSocial : Event :=
  { id := "evt004", title := "delta", type := "social", date := "2025-01-04",
    location := "hall", organizer := "unsw" }

/-- Filter `event_type=workshop`. -/
def fWorkshop : EventFilter := ⟨"event_type", "workshop"⟩

/-- Filter `event_type=party`. -/
def fParty : EventFilter := ⟨"event_type", "party"⟩

/-- Catalog with a workshop and a party, behind the real `EventDatabase`
search (at day ordinal 0). -/
def dbTwo : QueryService := dbService 0 [evWorkshop, evParty]

/-- Catalog with one workshop, behind the real `EventDatabase` search. -/
def dbOne : QueryService := dbService 0 [evWorkshop]

/-- An empty catalog, behind the real `EventDatabase` search. -/
def dbEmpty : QueryService := dbService 0 []

/-- An empty catalog as a bare query service (every query returns nothing). -/
def dbNull : QueryService := ⟨[], fun _ => []⟩

/-- Filter `date=tomorrow`. -/
def fTomorrow : EventFilter := ⟨"date", "tomorrow"⟩

/-- Session state for the paging scenario: four cached results, the first
page of three already shown, no filters. -/
def pagingState : ConvState := ⟨[], [evWorkshop, evParty, evSeminar, evSocial], 3, []⟩

/-! ### Helper lemmas: substrings and joins -/

theorem str_data_append (a b : String) : (a ++ b).data = a.data ++ b.data := rfl

theorem pyIn_of_parts (needle x : String) (pre post : List Char)
    (h : x.data = pre ++ needle.data ++ post) : pyIn needle x = true := by
  unfold pyIn listIsInfixOf
  rw [List.any_eq_true]
  refine ⟨needle.data ++ post, ?_, ?_⟩
  · rw [List.mem_tails]
    exact ⟨pre, by rw [h, List.append_assoc]⟩
  · exact List.isPrefixOf_iff_prefix.mpr ⟨post, rfl⟩

theorem pyIn_decomp (needle x : String) (h : pyIn needle x = true) :
    ∃ pre post, x.data = pre ++ needle.data ++ post := by
  unfold pyIn listIsInfixOf at h
  rw [List.any_eq_true] at h
  obtain ⟨t, ht, hp⟩ := h
  rw [List.mem_tails] at ht
  obtain ⟨pre, hpre⟩ := ht
  obtain ⟨post, hpost⟩ := List.isPrefixOf_iff_prefix.mp hp
  exact ⟨pre, post, by rw [← hpre, ← hpost, List.append_assoc]⟩

theorem pyJoin_decomp (sep : String) :
    ∀ (parts : List String) (x : String), x ∈ parts →
      ∃ pre post, (pyJoin sep parts).data = pre ++ x.data ++ post := by
  intro parts
  induction parts with
  | nil => intro x hx; exact absurd hx (List.not_mem_nil x)
  | cons a rest ih =>
    intro x hx
    cases rest with
    | nil =>
      rw [List.mem_singleton] at hx
      exact ⟨[], [], by rw [hx]; simp [pyJoin]⟩
    | cons b rest' =>
      rcases List.mem_cons.mp hx with h | h
      · refine ⟨[], sep.data ++ (pyJoin sep (b :: rest')).data, ?_⟩
        rw [h]
        simp [pyJoin, str_data_append]
      · obtain ⟨pre, post, hd⟩ := ih x h
        refine ⟨a.data ++ sep.data ++ pre, post, ?_⟩
        simp [pyJoin, str_data_append, hd]

theorem pyIn_pyJoin_of_mem (sep needle x : String) (parts : List String)
    (hx : x ∈ parts) (hsub : pyIn needle x = true) :
    pyIn needle (pyJoin sep parts) = true := by
  obtain ⟨p1, p2, h1⟩ := pyIn_decomp needle x hsub
  obtain ⟨q1, q2, h2⟩ := pyJoin_decomp sep parts x hx
  refine pyIn_of_parts needle _ (q1 ++ p1) (p2 ++ q2) ?_
  rw [h2, h1]
  simp [List.append_assoc]

theorem pyIn_self (s : String) : pyIn s s = true :=
  pyIn_of_parts s s [] [] (by simp)

/-! ### Helper lemmas: the relaxation loop -/

theorem relaxLoopRev_restore (db : QueryService) :
    ∀ (revFs removed : List EventFilter),
      (relaxLoopRev db revFs removed).filters ++
        ((relaxLoopRev db revFs removed).removed).reverse =
      revFs.reverse ++ removed.reverse := by
  intro revFs
  induction revFs with
  | nil => intro removed; simp [relaxLoopRev]
  | cons last restRev ih =>
    intro removed
    rw [relaxLoopRev]
    by_cases h : (conv_search_events db restRev.reverse).isEmpty
    · simp only [h, if_true]
      rw [ih]
      simp [List.append_assoc]
    · simp only [h, if_false]
      simp [List.append_assoc]

theorem relaxLoop_restore (db : QueryService) (mem : List EventFilter) :
    (relaxLoop db mem []).filters ++ ((relaxLoop db mem []).removed).reverse = mem := by
  unfold relaxLoop
  rw [relaxLoopRev_restore]
  simp

theorem restore_filters_eq (mem removed : List EventFilter) :
    restore_filters mem removed = mem ++ removed.reverse := by
  unfold restore_filters
  generalize removed.reverse = l
  induction l generalizing mem with
  | nil => simp
  | cons x xs ih =>
    rw [List.foldl_cons]
    show List.foldl _ (add_filter mem x.type x.value) xs = _
    rw [show add_filter mem x.type x.value = mem ++ [x] from rfl, ih]
    simp

/-- Claim C1: for every filter list in the store and every query service,
after the relaxation search performed by `_handle_no_results` terminates
(whether a relaxed query succeeded or all filters were removed without
results), the store's filter list equals, element for element and in order,
the filter list that was in the store when the relaxation began. -/
theorem relaxation_restores_store (db : QueryService) (current_year : Int)
    (fm : FilterMap) (mem : List EventFilter)
    (ack missing_line followup_line : Option String) (pointer : Nat) :
    (handle_no_results db current_year fm mem ack missing_line followup_line
        pointer).memory = mem := by
  unfold handle_no_results
  rcases hf : (relaxLoop db mem []).found with _ | res <;>
    simp only [hf] <;>
    rw [restore_filters_eq] <;>
    exact relaxLoop_restore db mem

/-- Claim C2: relaxing filters `[A, B, C]` (C appended most recently) after
the full list yielded zero results queries the reduced stores in exactly the
order `[A, B]`, then `[A]`, then `[]`, stops at the first non-empty result,
and records exactly the filters removed so far (in removal order) as the
relaxed-away record. -/
theorem relaxation_order_most_recent_first (db : QueryService) (A B C : EventFilter) :
    relaxLoop db [A, B, C] [] =
      (if (conv_search_events db [A, B]).isEmpty then
        (if (conv_search_events db [A]).isEmpty then
          (if (conv_search_events db []).isEmpty then ⟨[], [C, B, A], none⟩
           else ⟨[], [C, B, A], some (conv_search_events db [])⟩)
         else ⟨[A], [C, B], some (conv_search_events db [A])⟩)
       else ⟨[A, B], [C], some (conv_search_events db [A, B])⟩) := by
  show relaxLoopRev db [C, B, A] [] = _
  simp only [relaxLoopRev, List.reverse_cons, List.reverse_nil, List.nil_append,
    List.append_assoc, List.singleton_append, List.cons_append]

theorem relaxLoopRev_exhaust (db : QueryService) :
    ∀ (revFs removed : List EventFilter), revFs ≠ [] →
      (∀ t : List EventFilter, t ≠ [] → t <:+ revFs → t ≠ revFs →
        db.search_events t.reverse = []) →
      db.get_all_events ≠ [] →
      relaxLoopRev db revFs removed = ⟨[], removed ++ revFs, some db.get_all_events⟩ := by
  intro revFs
  induction revFs with
  | nil => intro removed h; exact absurd rfl h
  | cons last restRev ih =>
    intro removed _ hq hall
    rw [relaxLoopRev]
    by_cases hrest : restRev = []
    · subst hrest
      have h1 : conv_search_events db ([] : List EventFilter).reverse = db.get_all_events := by
        simp [conv_search_events]
      rw [h1]
      have h2 : (db.get_all_events).isEmpty = false := by
        cases h : db.get_all_events with
        | nil => exact absurd h hall
        | cons a l => rfl
      simp [h2]
    · have hsearch : db.search_events restRev.reverse = [] := by
        refine hq restRev hrest (List.suffix_cons last restRev) ?_
        intro h
        exact List.cons_ne_self last restRev h.symm
      have h1 : conv_search_events db restRev.reverse = [] := by
        rw [conv_search_events, if_neg, hsearch]
        simp [hrest]
      rw [h1]
      have h2 : ([] : List Event).isEmpty = true := rfl
      simp only [h2, if_true]
      rw [ih (removed ++ [last]) hrest ?_ hall]
      · simp
      · intro t ht hsuf hneq
        refine hq t ht (hsuf.trans (List.suffix_cons last restRev)) ?_
        intro h
        subst h
        have := hsuf.length_le
        simp at this

/-- Claim C3 (corrected): the relaxation search does not always exhaust all
filters when the full list queries empty and the catalog is non-empty — an
intermediate reduced list can already succeed.  Concretely, with the real
`EventDatabase` over a workshop and a party and the store
`[event_type=workshop, event_type=party]`, the full query is empty and the
catalog non-empty, yet the search stops after removing only the party filter,
its relaxed-away record misses `event_type=workshop`, and its results are not
the full catalog. -/
theorem relaxation_stops_before_exhaustion_cex :
    dbTwo.search_events [fWorkshop, fParty] = [] ∧
    dbTwo.get_all_events ≠ [] ∧
    (relaxLoop dbTwo [fWorkshop, fParty] []).removed = [fParty] ∧
    fWorkshop ∉ (relaxLoop dbTwo [fWorkshop, fParty] []).removed ∧
    (relaxLoop dbTwo [fWorkshop, fParty] []).found ≠ some dbTwo.get_all_events := by
  decide

/-- Claim C3 (amended): for every non-empty filter list and every query
service that returns the empty list for every non-empty proper prefix of the
filter list but at least one event for the empty filter list, the relaxation
search terminates having removed every filter: its relaxed-away record is the
input list reversed (so it contains every input filter) and its results equal
the query service's full catalog. -/
theorem relaxation_exhaustion_on_empty_prefixes (db : QueryService)
    (fs : List EventFilter) (hne : fs ≠ [])
    (hpre : ∀ p : List EventFilter, p ≠ [] → p <+: fs → p ≠ fs → db.search_events p = [])
    (hall : db.get_all_events ≠ []) :
    relaxLoop db fs [] = ⟨[], fs.reverse, some db.get_all_events⟩ ∧
    ∀ f ∈ fs, f ∈ (relaxLoop db fs []).removed := by
  have hmain : relaxLoop db fs [] = ⟨[], fs.reverse, some db.get_all_events⟩ := by
    unfold relaxLoop
    rw [relaxLoopRev_exhaust db fs.reverse [] ?_ ?_ hall]
    · simp
    · simpa using hne
    · intro t ht hsuf hneq
      have hp : t.reverse <+: fs := by
        rw [← List.reverse_suffix]
        simpa using hsuf
      refine hpre t.reverse ?_ hp ?_
      · simpa using ht
      · intro h
        apply hneq
        rw [← List.reverse_reverse t, h]
  refine ⟨hmain, ?_⟩
  intro f hf
  rw [hmain]
  simpa using hf

/-- Witness for the amended Claim C3 at a singleton filter list over the
one-workshop catalog. -/
theorem relaxation_exhaustion_on_empty_prefixes_witness :
    relaxLoop dbOne [fParty] [] = ⟨[], [fParty], some dbOne.get_all_events⟩ ∧
    fParty ∈ (relaxLoop dbOne [fParty] []).removed := by
  have h := relaxation_exhaustion_on_empty_prefixes dbOne [fParty]
    (by decide)
    (by
      intro p hne hp hneq
      obtain ⟨t, ht⟩ := hp
      cases p with
      | nil => exact absurd rfl hne
      | cons a p' =>
        cases p' with
        | nil =>
          simp only [List.cons_append, List.nil_append] at ht
          injection ht with h1 h2
          subst h1
          subst h2
          exact absurd rfl hneq
        | cons b p'' => simp at ht)
    (by decide)
  exact ⟨h.1, h.2 fParty (by decide)⟩

theorem relaxLoopRev_all_empty (db : QueryService) (hall : db.get_all_events = [])
    (hs : ∀ l, db.search_events l = []) :
    ∀ (revFs removed : List EventFilter),
      relaxLoopRev db revFs removed = ⟨[], removed ++ revFs, none⟩ := by
  intro revFs
  induction revFs with
  | nil => intro removed; simp [relaxLoopRev]
  | cons last rest ih =>
    intro removed
    rw [relaxLoopRev]
    have h1 : conv_search_events db rest.reverse = [] := by
      rw [conv_search_events]
      split
      · exact hall
      · exact hs _
    rw [h1]
    simp only [List.isEmpty_nil, if_true]
    rw [ih]
    simp

/-- Claim C4 (corrected, counterexample part): with an empty catalog and the
store `[date=tomorrow]`, the search ends with empty cached results, but the
cached relaxed-away record is cleared to `[]` — it is NOT the full input
filter list as the claim states. -/
theorem no_results_record_cleared_cex :
    (handle_no_results dbEmpty 2025 (collect_filter_map [fTomorrow]) [fTomorrow]
        none none none 0).lastRemovedFilters = [] ∧
    (handle_no_results dbEmpty 2025 (collect_filter_map [fTomorrow]) [fTomorrow]
        none none none 0).lastRemovedFilters ≠ [fTomorrow] ∧
    (handle_no_results dbEmpty 2025 (collect_filter_map [fTomorrow]) [fTomorrow]
        none none none 0).lastResults = [] := by
  decide

/-- Claim C4 (amended): for every non-empty filter list, when the catalog is
empty (every query, with or without filters, returns no events) the search
ends with cached results empty, the cached relaxed-away record cleared to the
empty list, the response containing the no-events-found message (the handler
is a total function, so nothing is raised), and the store's filters left
unchanged. -/
theorem empty_catalog_no_results (db : QueryService) (current_year : Int)
    (fm : FilterMap) (mem : List EventFilter) (ack : Option String) (pointer : Nat)
    (hall : db.get_all_events = []) (hs : ∀ l, db.search_events l = [])
    (_hne : mem ≠ []) :
    (handle_no_results db current_year fm mem ack none none pointer).lastResults = [] ∧
    (handle_no_results db current_year fm mem ack none none pointer).lastRemovedFilters = [] ∧
    (handle_no_results db current_year fm mem ack none none pointer).memory = mem ∧
    pyIn "I couldn't find any events matching those criteria, even after broadening the search."
      (handle_no_results db current_year fm mem ack none none pointer).response = true := by
  have hrelax : relaxLoop db mem [] = ⟨[], mem.reverse, none⟩ := by
    unfold relaxLoop
    rw [relaxLoopRev_all_empty db hall hs]
    simp
  unfold handle_no_results
  rw [hrelax]
  dsimp only
  refine ⟨rfl, rfl, ?_, ?_⟩
  · rw [restore_filters_eq]
    simp
  · refine pyIn_pyJoin_of_mem _ _ _ _ ?_ (pyIn_self _)
    simp [truthyList]

/-- Witness for the amended Claim C4 at a concrete empty query service,
one date filter and a concrete acknowledgment line. -/
theorem empty_catalog_no_results_witness :
    (handle_no_results dbNull 2025 emptyFilterMap [fTomorrow]
        (some "Looking for tomorrow.") none none 0).memory = [fTomorrow] ∧
    pyIn "I couldn't find any events matching those criteria, even after broadening the search."
      (handle_no_results dbNull 2025 emptyFilterMap [fTomorrow]
        (some "Looking for tomorrow.") none none 0).response = true := by
  have h := empty_catalog_no_results dbNull 2025 emptyFilterMap [fTomorrow]
    (some "Looking for tomorrow.") 0 rfl (fun _ => rfl) (by decide)
  exact ⟨h.2.2.1, h.2.2.2⟩

/-! ### Helper lemmas: the filter store and the filter map -/

theorem keyword_foldl_append (kws : List String) :
    ∀ m : List EventFilter,
      kws.foldl (fun m kw => add_filter m "keyword" kw) m =
        m ++ kws.map (fun kw => ⟨"keyword", kw⟩) := by
  induction kws with
  | nil => intro m; simp
  | cons k ks ih =>
    intro m
    rw [List.foldl_cons, ih]
    simp [add_filter]

theorem collect_apply_keywords_nodup (m : FilterMap) (item : EventFilter)
    (h : m.keywords.Nodup) : (collect_apply m item).keywords.Nodup := by
  unfold collect_apply
  split
  · split
    · exact h
    · next hmem =>
      refine List.Nodup.append h (List.nodup_singleton _) ?_
      intro x hx hy
      rw [List.mem_singleton] at hy
      subst hy
      exact hmem (List.elem_eq_true_of_mem hx)
  · split
    · exact h
    · split
      · exact h
      · split
        · exact h
        · split
          · exact h
          · exact h

theorem collect_filter_map_keywords_nodup :
    ∀ (fs : List EventFilter) (m : FilterMap), m.keywords.Nodup →
      (fs.foldl collect_apply m).keywords.Nodup := by
  intro fs
  induction fs with
  | nil => intro m h; exact h
  | cons f fs ih =>
    intro m h
    rw [List.foldl_cons]
    exact ih _ (collect_apply_keywords_nodup m f h)

theorem prefix_ite_of (mem : List EventFilter) (c : Prop) [Decidable c]
    (a b : List EventFilter) (ha : mem <+: a) (hb : mem <+: b) :
    mem <+: (if c then a else b) := by
  split
  · exact ha
  · exact hb

theorem prefix_add_filter_of (mem m : List EventFilter) (t v : String)
    (h : mem <+: m) : mem <+: add_filter m t v :=
  h.trans ⟨[⟨t, v⟩], rfl⟩

theorem prefix_keyword_foldl_of (mem m : List EventFilter) (kws : List String)
    (h : mem <+: m) :
    mem <+: kws.foldl (fun m kw => add_filter m "keyword" kw) m := by
  rw [keyword_foldl_append]
  exact h.trans ⟨_, rfl⟩

/-- Claim C5 (corrected, counterexample part): ingesting
`event_type=workshop, keywords=[python]` into a store that already holds that
event-type filter and that keyword appends both again — afterwards the store
holds two filters of kind `event_type` and two keyword filters with equal
values, contradicting the claimed overwrite/dedup-at-ingestion behavior. -/
theorem ingest_appends_duplicates_cex :
    (ingest_filters ⟨some "workshop", none, none, none, ["python"]⟩
        [⟨"event_type", "workshop"⟩, ⟨"keyword", "python"⟩]).1 =
      [⟨"event_type", "workshop"⟩, ⟨"keyword", "python"⟩,
       ⟨"event_type", "workshop"⟩, ⟨"keyword", "python"⟩] ∧
    ((ingest_filters ⟨some "workshop", none, none, none, ["python"]⟩
        [⟨"event_type", "workshop"⟩, ⟨"keyword", "python"⟩]).1.filter
      (fun f => f.type == "event_type")).length = 2 ∧
    ((ingest_filters ⟨some "workshop", none, none, none, ["python"]⟩
        [⟨"event_type", "workshop"⟩, ⟨"keyword", "python"⟩]).1.filter
      (fun f => f.type == "keyword" && f.value == "python")).length = 2 := by
  decide

/-- Claim C5 (amended): a FindEvent turn's filter merge appends every truthy
extracted category filter and every extracted keyword to the store (the store
itself may come to hold duplicate kinds and duplicate keyword values; the
existing store contents stay as a prefix), and the uniqueness the claim
describes holds of the derived filter map instead: the map returned by the
merge never contains duplicate keyword values (and by construction carries at
most one value per category kind). -/
theorem ingest_appends_and_map_dedups (parsed : FilterMap) (mem : List EventFilter) :
    mem <+: (ingest_filters parsed mem).1 ∧
    (ingest_filters parsed mem).2.keywords.Nodup := by
  constructor
  · unfold ingest_filters
    dsimp only
    repeat' first
      | exact List.prefix_refl mem
      | apply prefix_ite_of
      | apply prefix_add_filter_of
      | apply prefix_keyword_foldl_of
  · exact collect_filter_map_keywords_nodup _ emptyFilterMap List.nodup_nil

theorem getLast?_cons_getD (a : EventFilter) (l : List EventFilter) :
    (a :: l).getLast? = some ((l.getLast?).getD a) := by
  rw [List.getLast?_cons]

theorem collect_foldl_category (get : FilterMap → Option String) (kname : String)
    (hget : ∀ m f, get (collect_apply m f) =
      if f.type = kname then some f.value else get m) :
    ∀ (fs : List EventFilter) (m : FilterMap),
      get (fs.foldl collect_apply m) =
        (match (fs.filter (fun f => f.type == kname)).getLast? with
         | some f => some f.value
         | none => get m) := by
  intro fs
  induction fs with
  | nil => intro m; rfl
  | cons f fs ih =>
    intro m
    rw [List.foldl_cons, ih]
    by_cases h : f.type = kname
    · rw [List.filter_cons_of_pos (by simp [h]), getLast?_cons_getD]
      cases hl : (fs.filter (fun f => f.type == kname)).getLast? with
      | none => simp [hget, h]
      | some g => simp [hl]
    · rw [List.filter_cons_of_neg (by simp [h])]
      cases hl : (fs.filter (fun f => f.type == kname)).getLast? with
      | none => simp [hget, h]
      | some g => simp

theorem collect_apply_event_type (m : FilterMap) (f : EventFilter) :
    (collect_apply m f).event_type =
      if f.type = "event_type" then some f.value else m.event_type := by
  unfold collect_apply
  split_ifs with h1 h2 h3 h4 h5 h6 <;> simp_all

theorem collect_apply_date (m : FilterMap) (f : EventFilter) :
    (collect_apply m f).date = if f.type = "date" then some f.value else m.date := by
  unfold collect_apply
  split_ifs with h1 h2 h3 h4 h5 h6 <;> simp_all

theorem collect_apply_location (m : FilterMap) (f : EventFilter) :
    (collect_apply m f).location =
      if f.type = "location" then some f.value else m.location := by
  unfold collect_apply
  split_ifs with h1 h2 h3 h4 h5 h6 <;> simp_all

theorem collect_apply_organizer (m : FilterMap) (f : EventFilter) :
    (collect_apply m f).organizer =
      if f.type = "organizer" then some f.value else m.organizer := by
  unfold collect_apply
  split_ifs with h1 h2 h3 h4 h5 h6 <;> simp_all

/-- Claim C7: for every sequence of `add_filter` calls (any store contents)
and every category kind among event_type, date, location and organizer, the
derived filter map holds at most one value for that kind (it is a single
optional slot), and its value is the value of the most recently added filter
of that kind — last write wins; in particular adding the same category filter
twice leaves exactly one active value of that kind. -/
theorem filter_map_last_write_wins (fs : List EventFilter) (k : String)
    (hk : k ∈ CATEGORY_KINDS) :
    category_value (collect_filter_map fs) k =
      ((fs.filter (fun f => f.type == k)).getLast?).map EventFilter.value := by
  have hnone : ∀ (get : FilterMap → Option String),
      get emptyFilterMap = none →
      (∀ m f, get (collect_apply m f) = if f.type = k then some f.value else get m) →
      category_value (collect_filter_map fs) k = get (collect_filter_map fs) →
      category_value (collect_filter_map fs) k =
        ((fs.filter (fun f => f.type == k)).getLast?).map EventFilter.value := by
    intro get hempty hstep heq
    rw [heq]
    unfold collect_filter_map
    rw [collect_foldl_category get k hstep fs emptyFilterMap]
    cases hl : (fs.filter (fun f => f.type == k)).getLast? with
    | none => simpa using hempty
    | some g => simp
  fin_cases hk
  · exact hnone (fun m => m.event_type) rfl collect_apply_event_type rfl
  · exact hnone (fun m => m.date) rfl collect_apply_date rfl
  · exact hnone (fun m => m.location) rfl collect_apply_location rfl
  · exact hnone (fun m => m.organizer) rfl collect_apply_organizer rfl

/-- Witness for Claim C7: adding `event_type=workshop` then
`event_type=party` leaves the map's event type at the later value. -/
theorem filter_map_last_write_wins_witness :
    "event_type" ∈ CATEGORY_KINDS ∧
    category_value
      (collect_filter_map [⟨"event_type", "workshop"⟩, ⟨"event_type", "party"⟩])
      "event_type" = some "party" := by
  refine ⟨by decide, ?_⟩
  rw [filter_map_last_write_wins _ "event_type" (by decide)]
  decide

/-- Claim C6 (the code's actual behavior at the spec's scenario input):
normalization of "Find me a workshop about coding" yields
event type `workshop` but keywords `["about"]` — `coding` is singularized to
`cod` (the `-ing` suffix is stripped) and then discarded by the keyword
validation, so the claimed `coding` keyword is NOT extracted.  The repo's own
test asserts `'coding' in filters['keywords']`, so this is a code bug. -/
theorem normalize_workshop_coding_eval :
    normalize_input "Find me a workshop about coding" =
      ⟨some "workshop", none, none, none, ["about"]⟩ ∧
    "coding" ∉ (normalize_input "Find me a workshop about coding").keywords ∧
    singularize "coding" = "cod" := by
  decide

/-- Claim C9: the input "Arc" on its own classifies as the event-search
intent `find_event` (the organizer vocabulary check fires after every
higher-precedence rule fails), not `unknown`. -/
theorem detect_intent_arc_find_event : detect_intent "Arc" = "find_event" := by
  decide

/-- Claim C10: a date filter value that is none of `today`, `tomorrow`,
`this_week`, `next_week`, a lowercase weekday name, or a string that parses
as a `YYYY-MM-DD` calendar date leaves the event list unchanged — the filter
is a no-op rather than an error; in particular the `<n> days` marker that
normalization can produce never constrains search results. -/
theorem date_filter_unrecognized_noop (today : Int) (events : List Event) (dv : String)
    (h1 : dv ∉ (["today", "tomorrow", "this_week", "next_week"] : List String))
    (h2 : dv ∉ WEEKDAY_NAMES)
    (h3 : parse_iso_date dv = none) :
    filter_by_date today events dv = events := by
  have t1 : dv ≠ "today" := fun h => h1 (by rw [h]; decide)
  have t2 : dv ≠ "tomorrow" := fun h => h1 (by rw [h]; decide)
  have t3 : dv ≠ "this_week" := fun h => h1 (by rw [h]; decide)
  have t4 : dv ≠ "next_week" := fun h => h1 (by rw [h]; decide)
  unfold filter_by_date
  simp only [t1, t2, t3, t4, h2, h3, if_neg, if_false]

/-- Witness for Claim C10 at the `3 days` marker normalization produces. -/
theorem date_filter_unrecognized_noop_witness :
    parse_iso_date "3 days" = none ∧
    filter_by_date 0 [evSeminar] "3 days" = [evSeminar] :=
  ⟨by decide,
   date_filter_unrecognized_noop 0 [evSeminar] "3 days" (by decide) (by decide) (by decide)⟩

/-! ### Helper lemmas: paging -/

theorem handle_more_results_response (cy : Int) (st : ConvState)
    (h : st.lastResults.isEmpty = false) :
    (handle_more_results cy st).1 =
      pyJoin "\n\n" [format_search_results st.lastResults
        (some (build_results_header cy (collect_filter_map st.memory)
          st.lastRemovedFilters)),
        "That's all the events I found!"] := by
  unfold handle_more_results
  simp [h, truthy, build_missing_prompt, build_followup_prompt]

theorem handle_more_results_state (cy : Int) (st : ConvState)
    (h : st.lastResults.isEmpty = false) :
    (handle_more_results cy st).2 = { st with resultsPointer := st.lastResults.length } := by
  unfold handle_more_results
  simp [h]

theorem format_search_results_parts (results : List Event) (header : Option String)
    (h : results.isEmpty = false) :
    format_search_results results header =
      pyJoin "\n" ((if truthy header then [header.getD "", ""] else []) ++
        ((results.take 5).enum.map (fun p => render_event_lines (p.1 + 1) p.2)).flatten ++
        (if results.length > 5 then
          ["✨ Plus " ++ toString (results.length - 5) ++ " more event" ++
            (if results.length - 5 != 1 then "s" else "") ++ " available!", ""]
         else []) ++
        ["💡 Say 'tell me about event 1' (or any number) to learn more about a specific event.",
         "🔄 Continue refining your search, or say 'reset' to start fresh."]) := by
  unfold format_search_results
  simp [h]

/-- Claim C8 (corrected, counterexample part): with four cached results and
the first page of three already shown (pointer 3), a MoreResults turn does
NOT reveal only the next page-size chunk: its response re-lists the cached
results from the start (it contains the already-shown first event `ALPHA`),
it jumps the pointer to the full length, and a further MoreResults turn
returns the identical listing again instead of a repetition-free exhaustion
notice. -/
theorem more_results_repeats_cex :
    pagingState.resultsPointer = 3 ∧
    pyIn "ALPHA" (handle_more_results 2025 pagingState).1 = true ∧
    (handle_more_results 2025 (handle_more_results 2025 pagingState).2).1 =
      (handle_more_results 2025 pagingState).1 ∧
    (handle_more_results 2025 pagingState).2.resultsPointer = 4 := by
  refine ⟨rfl, ?_, ?_, ?_⟩
  · rw [handle_more_results_response 2025 pagingState rfl]
    refine pyIn_pyJoin_of_mem _ _
      (format_search_results pagingState.lastResults
        (some (build_results_header 2025 (collect_filter_map pagingState.memory)
          pagingState.lastRemovedFilters))) _
      (List.mem_cons_self _ _) ?_
    rw [format_search_results_parts pagingState.lastResults _ rfl]
    refine pyIn_pyJoin_of_mem _ _ "│ [1] ALPHA" _ ?_ (by decide)
    decide
  · rw [handle_more_results_state 2025 pagingState rfl,
      handle_more_results_response 2025
        { pagingState with resultsPointer := pagingState.lastResults.length } rfl,
      handle_more_results_response 2025 pagingState rfl]
  · rw [handle_more_results_state 2025 pagingState rfl]
    rfl

/-- Claim C8 (amended): for every session with a non-empty cached result
list, a MoreResults turn re-renders the cached `lastResults` (up to the
formatter's five-event cap) without consulting the query service — the
handler reads no query service at all — appends the exhaustion notice, and
sets `resultsPointer` to `len(lastResults)`; the pointer therefore never
exceeds the cached length, the cache and store are unchanged, a repeated
MoreResults turn returns the identical response (so it reports exhaustion
again without raising, though it also repeats the listing), and every such
response contains the exhaustion notice. -/
theorem more_results_exhaustion_behavior (cy : Int) (st : ConvState)
    (h : st.lastResults ≠ []) :
    (handle_more_results cy st).2.resultsPointer = st.lastResults.length ∧
    (handle_more_results cy st).2.resultsPointer ≤
      (handle_more_results cy st).2.lastResults.length ∧
    (handle_more_results cy st).2.memory = st.memory ∧
    (handle_more_results cy st).2.lastResults = st.lastResults ∧
    (handle_more_results cy (handle_more_results cy st).2).1 =
      (handle_more_results cy st).1 ∧
    pyIn "That's all the events I found!" (handle_more_results cy st).1 = true := by
  have hb : st.lastResults.isEmpty = false := by
    cases hl : st.lastResults with
    | nil => exact absurd hl h
    | cons a l => rfl
  refine ⟨?_, ?_, ?_, ?_, ?_, ?_⟩
  · rw [handle_more_results_state cy st hb]
  · rw [handle_more_results_state cy st hb]
  · rw [handle_more_results_state cy st hb]
  · rw [handle_more_results_state cy st hb]
  · rw [handle_more_results_state cy st hb,
      handle_more_results_response cy
        { st with resultsPointer := st.lastResults.length } (by simpa using hb),
      handle_more_results_response cy st hb]
  · rw [handle_more_results_response cy st hb]
    refine pyIn_pyJoin_of_mem _ _ "That's all the events I found!" _ ?_ (pyIn_self _)
    simp

/-- Witness for the amended Claim C8 at the concrete four-event paging
state. -/
theorem more_results_exhaustion_behavior_witness :
    (handle_more_results 2025 pagingState).2.resultsPointer = 4 ∧
    pyIn "That's all the events I found!" (handle_more_results 2025 pagingState).1 = true := by
  have h := more_results_exhaustion_behavior 2025 pagingState (by decide)
  exact ⟨h.1.trans (by decide), h.2.2.2.2.2⟩
